import Mathlib

/-!
Verification of the profile data accounting engine of ChromeCleaner
(src/chrome_cleaner.py).  The Python source is shallowly embedded:

* the static category registry `DATA_TYPE_MAPPING` (lines 26-31),
* `get_folder_size` (lines 97-106),
* `analyze_profile` (lines 119-162), with the filesystem threaded through
  the call so that frame (no-mutation) properties are actual statements,
* `clean_profile` (lines 164-198), and
* the dry-run totals accumulation of `main` (lines 253-278).

The filesystem visible to one profile is modelled as two association
lists: folders (flattened subtrees of regular files and symlinks) and
SQLite database files.  A database carries its logical tables (name and
row count), its on-disk file size, and a corruption flag (a corrupt file
makes every SQLite statement raise).

The cleanup paths run `conn.execute("DELETE FROM t"); conn.execute("VACUUM")`
inside `with sqlite3.connect(...)`.  Under Python's `sqlite3` default
transaction handling (any Python able to run this script) the `DELETE`
— once it prepares successfully — opens an implicit transaction, so the
following `VACUUM` always raises `OperationalError: cannot VACUUM from
within a transaction`; the context manager then rolls the delete back
and the surrounding `except` catches the error.  `deleteAndVacuum`
embeds exactly this: it returns an error (corrupt store, missing table,
or the VACUUM failure) on every input, and its callers' success arms —
like the source's unreachable `print(" Done.")` lines after the
with-blocks — are translated but never taken.
-/

set_option autoImplicit false

namespace ChromeCleaner

/-- Storage kinds of the category registry: the `"type"` field of the
entries of `DATA_TYPE_MAPPING` in the source. -/
inductive StorageKind where
  | sqlite
  | sqlite_nocount
  | folder
deriving DecidableEq, Repr

/-- One entry of the category registry: storage kind, the relative path
of the backing file or folder (the `"file"` / `"path"` field), and the
mapped table name (meaningful for the SQLite kinds only; the source dicts
for folder categories simply have no `"table"` key, modelled by `""`). -/
structure CatConfig where
  kind : StorageKind
  loc : String
  table : String
deriving DecidableEq, Repr

/-- The category registry, from lines 26-31 of the source.  A Python dict
lookup `DATA_TYPE_MAPPING.get(data_type)` is embedded as a chain of
string comparisons returning `Option CatConfig`. -/
def DATA_TYPE_MAPPING (data_type : String) : Option CatConfig :=
  if data_type = "history" then some ⟨.sqlite, "History", "urls"⟩
  else if data_type = "cookies" then some ⟨.sqlite_nocount, "Network/Cookies", "cookies"⟩
  else if data_type = "cache" then some ⟨.folder, "Cache", ""⟩
  else if data_type = "code_cache" then some ⟨.folder, "Code Cache", ""⟩
  else none

/-- `(DATA_TYPE_MAPPING data_type).isSome`: the category identifier is one
of the four recognized ones.  Unrecognized identifiers are skipped by both
`analyze_profile` and `clean_profile` (`if not config: continue`). -/
def recognized (data_type : String) : Bool :=
  (DATA_TYPE_MAPPING data_type).isSome

/-- An entry of a (flattened) folder subtree: a regular file or a
symbolic link, each with the byte size `os.path.getsize` would report. -/
inductive FsEntry where
  | file (bytes : Nat)
  | symlink (bytes : Nat)
deriving DecidableEq, Repr

/-- `os.path.islink`. -/
def FsEntry.isLink : FsEntry → Bool
  | .symlink _ => true
  | .file _ => false

/-- `os.path.getsize`. -/
def FsEntry.byteCount : FsEntry → Nat
  | .file b => b
  | .symlink b => b

@[simp] theorem FsEntry.isLink_file (b : Nat) : (FsEntry.file b).isLink = false := rfl

@[simp] theorem FsEntry.isLink_symlink (b : Nat) : (FsEntry.symlink b).isLink = true := rfl

@[simp] theorem FsEntry.byteCount_file (b : Nat) : (FsEntry.file b).byteCount = b := rfl

@[simp] theorem FsEntry.byteCount_symlink (b : Nat) : (FsEntry.symlink b).byteCount = b := rfl

/-- A folder as `os.walk` sees it: the flattened list of the entries of
its full subtree. -/
structure Folder where
  entries : List FsEntry
deriving DecidableEq, Repr

/-- A logical table of a SQLite database file: its name and its row
count. -/
structure Table where
  name : String
  rows : Nat
deriving DecidableEq, Repr

/-- A SQLite database file: its tables, its current on-disk size, and
whether the file is corrupt (every SQLite statement on it raises
`sqlite3.Error`). -/
structure DB where
  tables : List Table
  size : Nat
  corrupt : Bool
deriving DecidableEq, Repr

/-- Whether `t` appears in the schema catalog (`sqlite_master`). -/
def DB.hasTable (db : DB) (t : String) : Bool :=
  db.tables.any (fun tb => tb.name == t)

/-- `SELECT COUNT(*) FROM t`: `none` when the table is absent from the
schema. -/
def DB.rowsOf (db : DB) (t : String) : Option Nat :=
  (db.tables.find? (fun tb => tb.name == t)).map Table.rows

/-- The statement sequence `conn.execute("DELETE FROM t");
conn.execute("VACUUM")` run inside `with sqlite3.connect(path) as conn`,
as Python's `sqlite3` module executes it.  A corrupt file makes the
`DELETE` raise at prepare; a missing table makes it raise `no such
table`; otherwise the `DELETE` prepares as a data-modification statement
and so opens an implicit transaction, and the following `VACUUM` raises
`cannot VACUUM from within a transaction` — the context manager rolls
the delete back.  Every path is therefore an error with the store left
unchanged; the `Except.ok` payload (the store as delete+vacuum would
have left it) is never produced. -/
def deleteAndVacuum (db : DB) (t : String) : Except String DB :=
  if db.corrupt then .error "database disk image is malformed"
  else if db.hasTable t then .error "cannot VACUUM from within a transaction"
  else .error "no such table"

/-- The filesystem state one profile directory exposes to the engine:
folders and database files keyed by their profile-relative path. -/
structure ProfileFS where
  folders : List (String × Folder)
  dbs : List (String × DB)
deriving DecidableEq, Repr

/-- Association-list lookup (a path exists iff it has an entry). -/
def getA {α : Type} : List (String × α) → String → Option α
  | [], _ => none
  | (k', v) :: rest, k => if k' = k then some v else getA rest k

/-- Association-list update (insert or overwrite). -/
def setA {α : Type} : List (String × α) → String → α → List (String × α)
  | [], k, v => [(k, v)]
  | (k', v') :: rest, k, v =>
    if k' = k then (k, v) :: rest else (k', v') :: setA rest k v

/-- Association-list removal (`shutil.rmtree`). -/
def removeA {α : Type} (l : List (String × α)) (k : String) : List (String × α) :=
  l.filter (fun p => p.1 != k)

theorem getA_setA_self {α : Type} (l : List (String × α)) (k : String) (v : α) :
    getA (setA l k v) k = some v := by
  induction l with
  | nil => simp [setA, getA]
  | cons hd tl ih =>
    obtain ⟨k', v'⟩ := hd
    by_cases h : k' = k
    · simp [setA, getA, h]
    · simp [setA, getA, h, ih]

theorem getA_setA_ne {α : Type} (l : List (String × α)) (k k' : String) (v : α)
    (h : k' ≠ k) : getA (setA l k v) k' = getA l k' := by
  induction l with
  | nil => simp [setA, getA, Ne.symm h]
  | cons hd tl ih =>
    obtain ⟨k₀, v₀⟩ := hd
    by_cases h₀ : k₀ = k
    · subst h₀
      simp [setA, getA, Ne.symm h]
    · simp [setA, getA, h₀, ih]

theorem getA_removeA_self {α : Type} (l : List (String × α)) (k : String) :
    getA (removeA l k) k = none := by
  induction l with
  | nil => simp [removeA, getA]
  | cons hd tl ih =>
    obtain ⟨k₀, v₀⟩ := hd
    by_cases h₀ : k₀ = k
    · subst h₀
      simpa [removeA, List.filter_cons] using ih
    · have hrw : removeA ((k₀, v₀) :: tl) k = (k₀, v₀) :: removeA tl k := by
        simp [removeA, List.filter_cons, bne_iff_ne, h₀]
      rw [hrw]
      simp [getA, h₀, ih]

/-- `get_folder_size` (source lines 97-106): 0 when the path does not
exist, otherwise the walk over the subtree adding `getsize` for every
entry that is not a symlink. -/
def get_folder_size (fs : ProfileFS) (path : String) : Nat :=
  match getA fs.folders path with
  | none => 0
  | some fo => fo.entries.foldl (fun acc e => if e.isLink then acc else acc + e.byteCount) 0

/-- Specification-side reformulation for comparison: the sum of the byte
counts of the regular (non-symlink) files of the subtree. -/
def folderRegularSum (fo : Folder) : Nat :=
  ((fo.entries.filter (fun e => !e.isLink)).map FsEntry.byteCount).sum

theorem foldl_entries_sum (l : List FsEntry) (acc : Nat) :
    l.foldl (fun acc e => if e.isLink then acc else acc + e.byteCount) acc
      = acc + ((l.filter (fun e => !e.isLink)).map FsEntry.byteCount).sum := by
  induction l generalizing acc with
  | nil => simp
  | cons hd tl ih =>
    cases hd with
    | file b => simp [List.foldl_cons, List.filter_cons, ih, Nat.add_assoc]
    | symlink b => simp [List.foldl_cons, List.filter_cons, ih]

/-- The value stored under the `"count"` key of one category's entry of
an analysis report: the Python `None`, an integer row count, or the
`f"DB Error: {e}"` string produced when the SQLite open/scan raises. -/
inductive CountVal where
  | null
  | num (n : Nat)
  | errMark (msg : String)
deriving DecidableEq, Repr

/-- One category's entry of an analysis report.  `count = none` models a
dict without a `"count"` key (the folder-kind entries `{"size": ...}`);
`count = some .null` models `{"count": None, ...}`. -/
structure Metric where
  count : Option CountVal
  size : Nat
deriving DecidableEq, Repr

/-- The body of the `for data_type in types_to_scan` loop of
`analyze_profile` (source lines 122-161) for one category, with the
filesystem threaded through so that the absence of mutation is a
statement about the definition rather than about its type.  Every
operation the loop performs on the filesystem is a read: `exists`,
`stat().st_size`, the folder walk, and — for the countable `sqlite`
kind — opening the store with `mode=ro`, backing it up into a private
`:memory:` store and querying only that copy, so every branch returns
the state it was given.  A corrupt store makes the open/backup raise
`sqlite3.Error`, caught on line 160 and turned into the error-marker
count. -/
def analyzeCategoryS (fs : ProfileFS) (data_type : String) : Option Metric × ProfileFS :=
  match DATA_TYPE_MAPPING data_type with
  | none => (none, fs)
  | some config =>
    match config.kind with
    | .folder => (some { count := none, size := get_folder_size fs config.loc }, fs)
    | .sqlite_nocount =>
      match getA fs.dbs config.loc with
      | none => (some { count := some .null, size := 0 }, fs)
      | some db => (some { count := some .null, size := db.size }, fs)
    | .sqlite =>
      match getA fs.dbs config.loc with
      | none => (some { count := some (.num 0), size := 0 }, fs)
      | some db =>
        if db.corrupt then
          (some { count := some (.errMark "DB Error: database disk image is malformed"),
                  size := db.size }, fs)
        else
          match db.rowsOf config.table with
          | none => (some { count := some (.num 0), size := db.size }, fs)
          | some n => (some { count := some (.num n), size := db.size }, fs)

/-- `analyze_profile` (source lines 119-162): folds `analyzeCategoryS`
over the requested category identifiers, building the report in loop
order (unrecognized identifiers are skipped, line 124). -/
def analyze_profile (fs : ProfileFS) (types_to_scan : List String) :
    List (String × Metric) × ProfileFS :=
  match types_to_scan with
  | [] => ([], fs)
  | t :: rest =>
    let step := analyzeCategoryS fs t
    let restRun := analyze_profile step.2 rest
    ((match step.1 with
      | some m => [(t, m)]
      | none => []) ++ restRun.1, restRun.2)

/-- Modelled from the spec: the per-category result of the Cleanup
Executor.  `clean_profile` in the source only prints its per-category
results (lines 171-198) and returns no value; the spec's `CleanupOutcome`
record — `success`, the non-negative `bytes_freed`, and the optional
error message — is the missing returned value and is taken from §4.5 of
the spec. -/
structure CleanupOutcome where
  success : Bool
  bytes_freed : Nat
  error : Option String
deriving DecidableEq, Repr

/-- The bundled downloads-history step of the `cache` category (source
lines 178-188): if the profile's `History` database exists, run
`DELETE FROM downloads` and `VACUUM` on it.  Every `sqlite3.Error` —
a corrupt store, `no such table: downloads`, and the `cannot VACUUM
from within a transaction` the VACUUM always raises once the delete has
run — is caught by the inner `except` after the context manager has
rolled the transaction back, so the error arm leaves the state
unchanged; the `.ok` arm (the committed store of the source's
unreachable `print(" Done.")`) is translated but never taken. -/
def bundled_downloads_step (fs : ProfileFS) : ProfileFS :=
  match getA fs.dbs "History" with
  | none => fs
  | some db =>
    match deleteAndVacuum db "downloads" with
    | .error _ => fs
    | .ok db' => { fs with dbs := setA fs.dbs "History" db' }

/-- Modelled from the spec: clamp `pre - post` of §4.5 to 0 ("must never
be negative — clamp to 0 if it would be"). -/
def clampedDelta (pre post : Nat) : Nat :=
  (max ((pre : Int) - (post : Int)) 0).toNat

/-- The body of the `for data_type in types_to_clean` loop of
`clean_profile` (source lines 167-198) for one category.  Mutation and
control flow follow the code: the existence checks, `shutil.rmtree`,
the `deleteAndVacuum` statement sequence, the bundled downloads step of
the `cache` category, and the per-category `except Exception` (line
198), which catches every error `deleteAndVacuum` raises after the
context manager has rolled the transaction back.  Modelled from the
spec: the returned `CleanupOutcome` (the source prints instead of
returning) — the directory kind reports the size measured immediately
before removal, a caught exception reports `success = false`,
`bytes_freed = 0` and the message (§4.5), and the tabular `.ok` arm
(the spec's clamped pre/post delta, reachable in the source only as the
dead `print(" Done.")` of line 196) is translated but never taken. -/
def cleanCategory (fs : ProfileFS) (data_type : String) : Option CleanupOutcome × ProfileFS :=
  match DATA_TYPE_MAPPING data_type with
  | none => (none, fs)
  | some config =>
    match config.kind with
    | .folder =>
      let pre := get_folder_size fs config.loc
      let fs1 :=
        match getA fs.folders config.loc with
        | some _ => { fs with folders := removeA fs.folders config.loc }
        | none => fs
      let fs2 := if data_type = "cache" then bundled_downloads_step fs1 else fs1
      (some { success := true, bytes_freed := pre, error := none }, fs2)
    | .sqlite | .sqlite_nocount =>
      match getA fs.dbs config.loc with
      | none => (some { success := true, bytes_freed := 0, error := none }, fs)
      | some db =>
        match deleteAndVacuum db config.table with
        | .error msg =>
          (some { success := false, bytes_freed := 0, error := some msg }, fs)
        | .ok db' =>
          (some { success := true, bytes_freed := clampedDelta db.size db'.size,
                  error := none },
           { fs with dbs := setA fs.dbs config.loc db' })

/-- `clean_profile` (source lines 164-198): folds `cleanCategory` over
the requested category identifiers, collecting the per-category outcomes
in loop order (unrecognized identifiers are skipped, line 169). -/
def clean_profile (fs : ProfileFS) (types_to_clean : List String) :
    List (String × CleanupOutcome) × ProfileFS :=
  match types_to_clean with
  | [] => ([], fs)
  | t :: rest =>
    let step := cleanCategory fs t
    let restRun := clean_profile step.2 rest
    ((match step.1 with
      | some o => [(t, o)]
      | none => []) ++ restRun.1, restRun.2)

/-- The running `totals[data_type]["count"]` cell of the dry-run
aggregation of `main`.  The code initializes it to the integer 0 and only
ever adds integers to it, so it is always numeric; the `marker`
constructor exists so that the spec's contrary claim — that the total
can become a non-numeric error marker — is statable. -/
inductive TotalCount where
  | num (n : Nat)
  | marker (msg : String)
deriving DecidableEq, Repr

/-- Whether a running count total holds a number. -/
def TotalCount.isNumeric : TotalCount → Bool
  | .num _ => true
  | .marker _ => false

/-- The running totals cell for one category: `{"count": 0, "size": 0}`
of source line 253. -/
structure CatTotal where
  count : TotalCount
  size : Nat
deriving DecidableEq, Repr

/-- One iteration of the aggregation loop of `main` (source lines
260-278) for one category: skip when the report has no entry for the
category; add the count only when it is an `int` (`isinstance(count,
int)`, line 268) — a `None` or an error-marker string leaves the running
count untouched; add the size (report sizes are always integers, so the
`isinstance(size, int)` guard of line 277 always passes). -/
def absorbMetric (t : CatTotal) (entry : Option Metric) : CatTotal :=
  match entry with
  | none => t
  | some m =>
    { count :=
        match m.count, t.count with
        | some (.num n), .num acc => .num (acc + n)
        | _, _ => t.count,
      size := t.size + m.size }

/-- The aggregated total for one category over the per-profile reports,
starting from `{"count": 0, "size": 0}` (source lines 253-278). -/
def totalsFor (reports : List (List (String × Metric))) (data_type : String) : CatTotal :=
  reports.foldl (fun t rep => absorbMetric t (getA rep data_type)) { count := .num 0, size := 0 }

/-! Helper lemmas about the embedded SQLite operations. -/

theorem find?_eq_none_of_any_false (t : String) (l : List Table)
    (h : l.any (fun tb => tb.name == t) = false) :
    l.find? (fun tb => tb.name == t) = none := by
  induction l with
  | nil => rfl
  | cons hd tl ih =>
    simp only [List.any_cons, Bool.or_eq_false_iff] at h
    simp [List.find?_cons, h.1, ih h.2]

/-- Every error message `deleteAndVacuum` raises is non-empty. -/
theorem deleteAndVacuum_error_nonempty (db : DB) (t msg : String)
    (h : deleteAndVacuum db t = .error msg) : msg ≠ "" := by
  unfold deleteAndVacuum at h
  by_cases hc : db.corrupt = true
  · rw [if_pos hc] at h
    injection h with h
    rw [← h]
    decide
  · rw [if_neg hc] at h
    by_cases hht : db.hasTable t = true
    · rw [if_pos hht] at h
      injection h with h
      rw [← h]
      decide
    · rw [if_neg hht] at h
      injection h with h
      rw [← h]
      decide

/-- `deleteAndVacuum` never commits: there is no input on which the
delete+vacuum sequence completes (the VACUUM raises inside the implicit
transaction whenever the delete itself does not raise first). -/
theorem deleteAndVacuum_ne_ok (db : DB) (t : String) (db' : DB) :
    deleteAndVacuum db t ≠ .ok db' := by
  intro h
  unfold deleteAndVacuum at h
  by_cases hc : db.corrupt = true
  · rw [if_pos hc] at h
    exact Except.noConfusion h
  · rw [if_neg hc] at h
    by_cases hht : db.hasTable t = true
    · rw [if_pos hht] at h
      exact Except.noConfusion h
    · rw [if_neg hht] at h
      exact Except.noConfusion h

/-! Helper lemmas about the per-category operations. -/

/-- The bundled downloads step never changes the state: whatever the
History store's condition, the delete is rolled back when a statement
raises, and the inner `except` swallows the error. -/
theorem bundled_downloads_step_eq (fs : ProfileFS) :
    bundled_downloads_step fs = fs := by
  unfold bundled_downloads_step
  cases hdb : getA fs.dbs "History" with
  | none => rfl
  | some db =>
    dsimp only
    cases he : deleteAndVacuum db "downloads" with
    | error msg => rfl
    | ok db' => exact absurd he (deleteAndVacuum_ne_ok db "downloads" db')

theorem analyzeCategoryS_snd (fs : ProfileFS) (dt : String) :
    (analyzeCategoryS fs dt).2 = fs := by
  unfold analyzeCategoryS
  split
  · rfl
  · split
    · rfl
    · split <;> rfl
    · split
      · rfl
      · split
        · rfl
        · split <;> rfl

/-! Claim theorems. -/

/-- C6: `get_folder_size` returns 0 when the path does not exist and
otherwise the sum of the sizes of the regular files of the full subtree,
with symbolic links excluded from the sum; in particular a directory
holding one regular file of size 500 and one symlink of target size
12345 measures 500. -/
theorem get_folder_size_correct :
    (∀ (fs : ProfileFS) (p : String),
      get_folder_size fs p = (getA fs.folders p).elim 0 folderRegularSum)
    ∧ get_folder_size
        { folders := [("d", ⟨[.file 500, .symlink 12345]⟩)], dbs := [] } "d" = 500 := by
  constructor
  · intro fs p
    unfold get_folder_size
    cases h : getA fs.folders p with
    | none => rfl
    | some fo => simp [folderRegularSum, foldl_entries_sum]
  · rfl

/-- C3: `analyze_profile` never mutates any backing store or filesystem
entry — the filesystem threaded through the analysis comes back exactly
as it went in, for every profile state and every requested category
sequence (the countable store is inspected on a read-only open backed up
into a disposable in-memory copy, so no branch writes). -/
theorem analyze_profile_no_mutation :
    ∀ (fs : ProfileFS) (types_to_scan : List String),
      (analyze_profile fs types_to_scan).2 = fs := by
  intro fs types
  induction types generalizing fs with
  | nil => rfl
  | cons t rest ih =>
    show (analyze_profile fs (t :: rest)).2 = fs
    unfold analyze_profile
    simp [ih, analyzeCategoryS_snd]

/-- C9: for the `cookies` category (`sqlite_nocount`), analysis reports
the count as the Python `None` whether or not the store file exists and
whatever it contains, and the size as the store file's size (0 when the
file is absent); the result depends on the store only through its
existence and file size — the store is never opened. -/
theorem analyze_cookies_nocount :
    ∀ fs : ProfileFS,
      analyzeCategoryS fs "cookies"
        = (some { count := some .null,
                  size := (getA fs.dbs "Network/Cookies").elim 0 DB.size }, fs) := by
  intro fs
  have hmap : DATA_TYPE_MAPPING "cookies"
      = some ⟨.sqlite_nocount, "Network/Cookies", "cookies"⟩ := rfl
  unfold analyzeCategoryS
  rw [hmap]
  cases h : getA fs.dbs "Network/Cookies" <;> simp [h]

/-- A report entry carries a present (integer) row count. -/
def rowCountPresent (m : Metric) : Bool :=
  match m.count with
  | some (.num _) => true
  | _ => false

/-- Whether the backing file or folder of a category is absent from the
profile. -/
def backingAbsent (fs : ProfileFS) (cfg : CatConfig) : Prop :=
  match cfg.kind with
  | .folder => getA fs.folders cfg.loc = none
  | _ => getA fs.dbs cfg.loc = none

/-- C4 (counterexample): the claimed invariant — a row count is present
iff the storage kind is tabular AND the backing store file exists AND
the mapped table is present — is false on the code: analyzing `history`
on a profile with no `History` file reports `{"count": 0, "size": 0}`,
an integer (present) row count although the backing file does not
exist. -/
theorem analyze_rowcount_presence_counterexample :
    ¬ (∀ (fs : ProfileFS) (dt : String) (cfg : CatConfig) (m : Metric) (fs' : ProfileFS),
        DATA_TYPE_MAPPING dt = some cfg → analyzeCategoryS fs dt = (some m, fs') →
        (rowCountPresent m = true ↔
          (cfg.kind ≠ .folder
            ∧ ∃ db, getA fs.dbs cfg.loc = some db ∧ db.hasTable cfg.table = true))) := by
  intro h
  have h2 := h { folders := [], dbs := [] } "history" ⟨.sqlite, "History", "urls"⟩
      { count := some (.num 0), size := 0 } { folders := [], dbs := [] } rfl rfl
  obtain ⟨-, db, hdb, -⟩ := h2.mp rfl
  simp [getA] at hdb

/-- C4 (amended): in every report entry `analyze_profile` produces, an
integer row count is present iff the storage kind is the countable
`sqlite` kind and the store, when its file exists, is not corrupt (a
missing file is still reported with the integer count 0, and a corrupt
store with a non-numeric error marker; the `sqlite_nocount` and folder
kinds never carry an integer count).  The byte size is present in every
entry and is 0 when the backing file or folder is absent. -/
theorem analyze_rowcount_presence_amended :
    ∀ (fs : ProfileFS) (dt : String) (cfg : CatConfig) (m : Metric) (fs' : ProfileFS),
      DATA_TYPE_MAPPING dt = some cfg → analyzeCategoryS fs dt = (some m, fs') →
      ((rowCountPresent m = true ↔
          (cfg.kind = .sqlite
            ∧ ∀ db, getA fs.dbs cfg.loc = some db → db.corrupt = false))
        ∧ (backingAbsent fs cfg → m.size = 0)) := by
  intro fs dt cfg m fs' hmap hana
  unfold analyzeCategoryS at hana
  rw [hmap] at hana
  obtain ⟨kind, loc, table⟩ := cfg
  cases kind with
  | folder =>
    injection hana with h1 h2
    injection h1 with h1
    subst h1
    refine ⟨by simp [rowCountPresent], fun hab => ?_⟩
    have hnone : getA fs.folders loc = none := hab
    simp [get_folder_size, hnone]
  | sqlite_nocount =>
    dsimp only at hana
    cases hdb : getA fs.dbs loc with
    | none =>
      rw [hdb] at hana
      injection hana with h1 h2
      injection h1 with h1
      subst h1
      exact ⟨by simp [rowCountPresent], fun _ => rfl⟩
    | some db =>
      rw [hdb] at hana
      injection hana with h1 h2
      injection h1 with h1
      subst h1
      refine ⟨by simp [rowCountPresent], fun hab => ?_⟩
      have hnone : getA fs.dbs loc = none := hab
      rw [hdb] at hnone
      exact Option.noConfusion hnone
  | sqlite =>
    dsimp only at hana
    cases hdb : getA fs.dbs loc with
    | none =>
      rw [hdb] at hana
      injection hana with h1 h2
      injection h1 with h1
      subst h1
      exact ⟨⟨fun _ => ⟨rfl, fun db hdb' => Option.noConfusion hdb'⟩, fun _ => rfl⟩,
        fun _ => rfl⟩
    | some db =>
      rw [hdb] at hana
      dsimp only at hana
      cases hcor : db.corrupt with
      | true =>
        rw [if_pos hcor] at hana
        injection hana with h1 h2
        injection h1 with h1
        subst h1
        constructor
        · constructor
          · intro habs
            exact absurd habs (by simp [rowCountPresent])
          · rintro ⟨-, hall⟩
            have hc := hall db rfl
            rw [hcor] at hc
            exact Bool.noConfusion hc
        · intro hab
          have hnone : getA fs.dbs loc = none := hab
          rw [hdb] at hnone
          exact Option.noConfusion hnone
      | false =>
        rw [if_neg (by simp [hcor])] at hana
        have hfin : ∀ db' : DB, some db = some db' → db'.corrupt = false := by
          intro db' h
          injection h with h
          subst h
          exact hcor
        have habs : ¬ backingAbsent fs ⟨.sqlite, loc, table⟩ := by
          intro hab
          have hnone : getA fs.dbs loc = none := hab
          rw [hdb] at hnone
          exact Option.noConfusion hnone
        cases hrow : db.rowsOf table with
        | none =>
          rw [hrow] at hana
          injection hana with h1 h2
          injection h1 with h1
          subst h1
          exact ⟨⟨fun _ => ⟨rfl, hfin⟩, fun _ => rfl⟩, fun hab => absurd hab habs⟩
        | some n =>
          rw [hrow] at hana
          injection hana with h1 h2
          injection h1 with h1
          subst h1
          exact ⟨⟨fun _ => ⟨rfl, hfin⟩, fun _ => rfl⟩, fun hab => absurd hab habs⟩

/-- A profile report whose `history` metric carries an error marker. -/
def rpErr : List (String × Metric) :=
  [("history", { count := some (.errMark "DB Error: x"), size := 10 })]

/-- A profile report whose `history` metric carries the count 5. -/
def rpNum : List (String × Metric) :=
  [("history", { count := some (.num 5), size := 20 })]

/-- C7 (counterexample): the claim that a running total that has ever
absorbed an error-marker for a category becomes and stays non-numeric is
false on the code: folding the totals over a report with a `DB Error`
marker for `history` followed by a report counting 5 leaves the running
count the plain number 5 — the marker is skipped, not absorbed into the
total. -/
theorem totals_error_marker_counterexample :
    ¬ (∀ (reports : List (List (String × Metric))) (dt : String),
        (∃ rep, rep ∈ reports ∧ ∃ m, getA rep dt = some m
          ∧ ∃ s, m.count = some (.errMark s)) →
        (totalsFor reports dt).count.isNumeric = false) := by
  intro h
  have hmem : ∃ rep, rep ∈ [rpErr, rpNum] ∧ ∃ m, getA rep "history" = some m
      ∧ ∃ s, m.count = some (.errMark s) :=
    ⟨rpErr, by simp, { count := some (.errMark "DB Error: x"), size := 10 }, rfl,
      "DB Error: x", rfl⟩
  have hval := h [rpErr, rpNum] "history" hmem
  rw [show totalsFor [rpErr, rpNum] "history"
      = { count := .num 5, size := 30 } from rfl] at hval
  exact Bool.noConfusion hval

/-- The sum of the integer counts a category's column contributes over
the per-profile reports (`None`, a missing entry, and error-marker
strings contribute nothing). -/
def numericCountSum (reports : List (List (String × Metric))) (dt : String) : Nat :=
  (reports.map (fun rep =>
    match getA rep dt with
    | some m =>
      match m.count with
      | some (.num n) => n
      | _ => 0
    | none => 0)).sum

/-- The sum of the byte sizes a category's column contributes over the
per-profile reports. -/
def sizeSum (reports : List (List (String × Metric))) (dt : String) : Nat :=
  (reports.map (fun rep =>
    match getA rep dt with
    | some m => m.size
    | none => 0)).sum

theorem totalsFor_foldl_aux (dt : String) (reports : List (List (String × Metric)))
    (a s : Nat) :
    reports.foldl (fun t rep => absorbMetric t (getA rep dt))
        { count := .num a, size := s }
      = { count := .num (a + numericCountSum reports dt),
          size := s + sizeSum reports dt } := by
  induction reports generalizing a s with
  | nil => simp [numericCountSum, sizeSum]
  | cons rep rest ih =>
    rw [List.foldl_cons]
    cases hr : getA rep dt with
    | none =>
      rw [show absorbMetric { count := TotalCount.num a, size := s } none
          = { count := TotalCount.num a, size := s } from rfl, ih]
      simp [numericCountSum, sizeSum, hr]
    | some m =>
      cases hcv : m.count with
      | none =>
        have habs : absorbMetric { count := TotalCount.num a, size := s } (some m)
            = { count := TotalCount.num a, size := s + m.size } := by
          simp [absorbMetric, hcv]
        rw [habs, ih]
        simp [numericCountSum, sizeSum, hr, hcv, Nat.add_assoc]
      | some cv =>
        cases cv with
        | null =>
          have habs : absorbMetric { count := TotalCount.num a, size := s } (some m)
              = { count := TotalCount.num a, size := s + m.size } := by
            simp [absorbMetric, hcv]
          rw [habs, ih]
          simp [numericCountSum, sizeSum, hr, hcv, Nat.add_assoc]
        | num n =>
          have habs : absorbMetric { count := TotalCount.num a, size := s } (some m)
              = { count := TotalCount.num (a + n), size := s + m.size } := by
            simp [absorbMetric, hcv]
          rw [habs, ih]
          simp [numericCountSum, sizeSum, hr, hcv, Nat.add_assoc]
        | errMark msg =>
          have habs : absorbMetric { count := TotalCount.num a, size := s } (some m)
              = { count := TotalCount.num a, size := s + m.size } := by
            simp [absorbMetric, hcv]
          rw [habs, ih]
          simp [numericCountSum, sizeSum, hr, hcv, Nat.add_assoc]

/-- C7 (amended): for every report sequence and category the dry-run
totals stay numeric throughout: an integer row count is added only when
the incoming value is numeric — error markers (and `None` / missing
entries) are skipped, leaving the running total untouched — and the
final total is exactly the sum of the numeric counts seen; the byte
size, always an integer in a report, is always added. -/
theorem totals_accumulation_amended :
    ∀ (reports : List (List (String × Metric))) (dt : String),
      (totalsFor reports dt).count = .num (numericCountSum reports dt)
      ∧ (totalsFor reports dt).size = sizeSum reports dt := by
  intro reports dt
  unfold totalsFor
  rw [totalsFor_foldl_aux]
  simp

theorem cleanCategory_some (fs : ProfileFS) (dt : String) (cfg : CatConfig)
    (hmap : DATA_TYPE_MAPPING dt = some cfg) :
    ∃ o fs', cleanCategory fs dt = (some o, fs') := by
  unfold cleanCategory
  rw [hmap]
  obtain ⟨kind, loc, table⟩ := cfg
  cases kind with
  | folder => exact ⟨_, _, rfl⟩
  | sqlite =>
    dsimp only
    cases hget : getA fs.dbs loc with
    | none => exact ⟨_, _, rfl⟩
    | some db =>
      dsimp only
      cases he : deleteAndVacuum db table with
      | error msg => exact ⟨_, _, rfl⟩
      | ok db' => exact ⟨_, _, rfl⟩
  | sqlite_nocount =>
    dsimp only
    cases hget : getA fs.dbs loc with
    | none => exact ⟨_, _, rfl⟩
    | some db =>
      dsimp only
      cases he : deleteAndVacuum db table with
      | error msg => exact ⟨_, _, rfl⟩
      | ok db' => exact ⟨_, _, rfl⟩

/-- C1 (the code at the claimed success input): on the very input where
the claim's tabular accounting clause applies — store file exists,
readable, mapped table present — the program never reaches the claimed
`success = true` outcome: the `DELETE FROM` opens an implicit
transaction, the `VACUUM` raises `cannot VACUUM from within a
transaction`, the context manager rolls the delete back, and the
per-category `except` reports the category FAILED with 0 bytes freed
and the store byte-for-byte unchanged.  The claim (and spec §4.5)
describe the intent of the dead success path; the code is the slip. -/
theorem cleanCategory_vacuum_tx_bug :
    ∀ (fs : ProfileFS) (dt : String) (cfg : CatConfig) (db : DB),
      DATA_TYPE_MAPPING dt = some cfg → cfg.kind ≠ .folder →
      getA fs.dbs cfg.loc = some db → db.corrupt = false →
      db.hasTable cfg.table = true →
      cleanCategory fs dt
        = (some { success := false, bytes_freed := 0,
                  error := some "cannot VACUUM from within a transaction" }, fs) := by
  intro fs dt cfg db hmap hk hget hcor hht
  obtain ⟨kind, loc, table⟩ := cfg
  have he : deleteAndVacuum db table
      = .error "cannot VACUUM from within a transaction" := by
    unfold deleteAndVacuum
    rw [if_neg (by simp [hcor]), if_pos hht]
  cases kind with
  | folder => exact absurd rfl hk
  | sqlite =>
    unfold cleanCategory
    rw [hmap]
    dsimp only
    rw [hget]
    dsimp only
    rw [he]
  | sqlite_nocount =>
    unfold cleanCategory
    rw [hmap]
    dsimp only
    rw [hget]
    dsimp only
    rw [he]

theorem cleanCategory_failed_shape (fs : ProfileFS) (dt : String) (o : CleanupOutcome)
    (fs' : ProfileFS) (h : cleanCategory fs dt = (some o, fs')) (hf : o.success = false) :
    o.bytes_freed = 0 ∧ ∃ msg, o.error = some msg ∧ msg ≠ "" := by
  unfold cleanCategory at h
  cases hmap : DATA_TYPE_MAPPING dt with
  | none =>
    rw [hmap] at h
    injection h with h1 h2
    exact Option.noConfusion h1
  | some cfg =>
    rw [hmap] at h
    obtain ⟨kind, loc, table⟩ := cfg
    cases kind with
    | folder =>
      injection h with h1 h2
      injection h1 with h1
      rw [← h1] at hf
      exact Bool.noConfusion hf
    | sqlite =>
      dsimp only at h
      cases hget : getA fs.dbs loc with
      | none =>
        rw [hget] at h
        injection h with h1 h2
        injection h1 with h1
        rw [← h1] at hf
        exact Bool.noConfusion hf
      | some db =>
        rw [hget] at h
        dsimp only at h
        cases he : deleteAndVacuum db table with
        | error msg =>
          rw [he] at h
          injection h with h1 h2
          injection h1 with h1
          rw [← h1]
          exact ⟨rfl, msg, rfl, deleteAndVacuum_error_nonempty db table msg he⟩
        | ok db' => exact absurd he (deleteAndVacuum_ne_ok db table db')
    | sqlite_nocount =>
      dsimp only at h
      cases hget : getA fs.dbs loc with
      | none =>
        rw [hget] at h
        injection h with h1 h2
        injection h1 with h1
        rw [← h1] at hf
        exact Bool.noConfusion hf
      | some db =>
        rw [hget] at h
        dsimp only at h
        cases he : deleteAndVacuum db table with
        | error msg =>
          rw [he] at h
          injection h with h1 h2
          injection h1 with h1
          rw [← h1]
          exact ⟨rfl, msg, rfl, deleteAndVacuum_error_nonempty db table msg he⟩
        | ok db' => exact absurd he (deleteAndVacuum_ne_ok db table db')

/-- C2: exceptions are caught per category — any outcome reported as
failed carries `bytes_freed = 0` and a non-empty error message, and the
loop still produces an outcome for every recognized category of the
requested sequence, whatever failed before it: one failing category
never prevents the others from being processed. -/
theorem clean_profile_failure_isolation :
    ∀ (fs : ProfileFS) (types_to_clean : List String),
      (∀ dt, dt ∈ types_to_clean → recognized dt = true →
        ∃ o, (dt, o) ∈ (clean_profile fs types_to_clean).1)
      ∧ (∀ dt o, (dt, o) ∈ (clean_profile fs types_to_clean).1 → o.success = false →
          o.bytes_freed = 0 ∧ ∃ msg, o.error = some msg ∧ msg ≠ "") := by
  intro fs types
  induction types generalizing fs with
  | nil =>
    constructor
    · intro dt hdt
      exact absurd hdt (List.not_mem_nil dt)
    · intro dt o hmem
      exact absurd hmem (List.not_mem_nil (dt, o))
  | cons t rest ih =>
    constructor
    · intro dt hdt hrecog
      rcases List.mem_cons.mp hdt with heq | hmem
      · subst heq
        obtain ⟨cfg, hcfg⟩ := Option.isSome_iff_exists.mp hrecog
        obtain ⟨o, fs', hcc⟩ := cleanCategory_some fs dt cfg hcfg
        have hfst : (cleanCategory fs dt).1 = some o := by rw [hcc]
        refine ⟨o, ?_⟩
        unfold clean_profile
        dsimp only
        rw [hfst]
        exact List.mem_append_left _ (List.mem_singleton.mpr rfl)
      · obtain ⟨o, ho⟩ := (ih (cleanCategory fs t).2).1 dt hmem hrecog
        refine ⟨o, ?_⟩
        unfold clean_profile
        dsimp only
        exact List.mem_append_right _ ho
    · intro dt o hmem hfail
      unfold clean_profile at hmem
      dsimp only at hmem
      rcases List.mem_append.mp hmem with hl | hr
      · cases hstep : (cleanCategory fs t).1 with
        | none =>
          rw [hstep] at hl
          exact absurd hl (List.not_mem_nil (dt, o))
        | some o' =>
          rw [hstep] at hl
          have hpair := List.mem_singleton.mp hl
          injection hpair with hdt ho
          subst ho
          have hcc : cleanCategory fs t = (some o, (cleanCategory fs t).2) := by
            rw [← hstep]
          exact cleanCategory_failed_shape fs t o _ hcc hfail
      · exact (ih (cleanCategory fs t).2).2 dt o hr hfail

/-- A cookies store that exists (file size 7) but holds no `cookies`
table. -/
def dbNoCookiesTable : DB :=
  { tables := [], size := 7, corrupt := false }

/-- A profile whose `Network/Cookies` store exists without the mapped
table. -/
def fsNoCookiesTable : ProfileFS :=
  { folders := [], dbs := [("Network/Cookies", dbNoCookiesTable)] }

/-- C10 (counterexample): the claim says every tabular-kind category
whose store exists without the mapped table is analyzed with a row count
of 0; but the `sqlite_nocount` tabular kind (`cookies`) never counts:
on a profile whose cookies store exists without a `cookies` table the
analysis reports the count `None`, not 0. -/
theorem clean_missing_table_counterexample :
    ¬ (∀ (fs : ProfileFS) (dt : String) (cfg : CatConfig) (db : DB),
        DATA_TYPE_MAPPING dt = some cfg → cfg.kind ≠ .folder →
        getA fs.dbs cfg.loc = some db → db.corrupt = false →
        db.hasTable cfg.table = false →
        (analyzeCategoryS fs dt).1
          = some { count := some (.num 0), size := db.size }) := by
  intro h
  have hinst := h fsNoCookiesTable "cookies" ⟨.sqlite_nocount, "Network/Cookies", "cookies"⟩
      dbNoCookiesTable rfl (by decide) rfl rfl rfl
  rw [show (analyzeCategoryS fsNoCookiesTable "cookies").1
      = some { count := some .null, size := 7 } from rfl] at hinst
  simp at hinst

/-- C10 (amended): for every tabular-kind category whose backing store
file exists, is readable (not corrupt) and does not contain the mapped
table, `clean` reports the category as failed with a non-empty error
message (the `DELETE FROM` raises `no such table` and is caught) and
leaves the state unchanged, rather than succeeding as a no-op; on the
same state `analyze` reports without error a row count of 0 for the
countable `sqlite` kind and an absent (`None`) count for the
`sqlite_nocount` kind. -/
theorem clean_missing_table_amended :
    ∀ (fs : ProfileFS) (dt : String) (cfg : CatConfig) (db : DB),
      DATA_TYPE_MAPPING dt = some cfg → cfg.kind ≠ .folder →
      getA fs.dbs cfg.loc = some db → db.corrupt = false →
      db.hasTable cfg.table = false →
      (cleanCategory fs dt
          = (some { success := false, bytes_freed := 0, error := some "no such table" }, fs)
        ∧ ("no such table" : String) ≠ "")
      ∧ (cfg.kind = .sqlite →
          (analyzeCategoryS fs dt).1 = some { count := some (.num 0), size := db.size })
      ∧ (cfg.kind = .sqlite_nocount →
          (analyzeCategoryS fs dt).1 = some { count := some .null, size := db.size }) := by
  intro fs dt cfg db hmap hk hget hcor hht
  obtain ⟨kind, loc, table⟩ := cfg
  have hrow : db.rowsOf table = none := by
    unfold DB.rowsOf
    rw [find?_eq_none_of_any_false table db.tables hht]
    rfl
  have he : deleteAndVacuum db table = .error "no such table" := by
    unfold deleteAndVacuum
    rw [if_neg (by simp [hcor]), if_neg (by simp [hht])]
  refine ⟨⟨?_, by decide⟩, ?_, ?_⟩
  · cases kind with
    | folder => exact absurd rfl hk
    | sqlite =>
      unfold cleanCategory
      rw [hmap]
      dsimp only
      rw [hget]
      dsimp only
      rw [he]
    | sqlite_nocount =>
      unfold cleanCategory
      rw [hmap]
      dsimp only
      rw [hget]
      dsimp only
      rw [he]
  · intro hkind
    cases hkind
    unfold analyzeCategoryS
    rw [hmap]
    dsimp only
    rw [hget]
    dsimp only
    rw [if_neg (by simp [hcor]), hrow]
  · intro hkind
    cases hkind
    unfold analyzeCategoryS
    rw [hmap]
    dsimp only
    rw [hget]

/-- A profile whose History store exists without a `urls` table. -/
def fsNoUrlsTable : ProfileFS :=
  { folders := [],
    dbs := [("History", { tables := [⟨"downloads", 2⟩], size := 30, corrupt := false })] }

/-- Witness for the amended C10 at a history store lacking the `urls`
table: the clean step fails with a message and the analysis counts 0. -/
theorem clean_missing_table_amended_witness :
    ((cleanCategory fsNoUrlsTable "history"
        = (some { success := false, bytes_freed := 0, error := some "no such table" },
           fsNoUrlsTable)
      ∧ ("no such table" : String) ≠ "")
    ∧ (StorageKind.sqlite = StorageKind.sqlite →
        (analyzeCategoryS fsNoUrlsTable "history").1
          = some { count := some (.num 0), size := 30 })
    ∧ (StorageKind.sqlite = StorageKind.sqlite_nocount →
        (analyzeCategoryS fsNoUrlsTable "history").1
          = some { count := some .null, size := 30 })) :=
  clean_missing_table_amended fsNoUrlsTable "history" ⟨.sqlite, "History", "urls"⟩
    { tables := [⟨"downloads", 2⟩], size := 30, corrupt := false }
    rfl (by decide) rfl rfl rfl

/-- C5 (the code at the claimed input): cleaning the `cache` category
*attempts* the bundled `DELETE FROM downloads` + `VACUUM` on the
profile's History store (lines 178-188), but the VACUUM always raises
inside the implicit transaction the delete opened, the context manager
rolls the delete back, and the inner `except sqlite3.Error` swallows the
failure — so after `clean_profile fs ["cache"]` every database of the
profile, the History store included, is byte-for-byte unchanged (its
downloads rows survive and its file size is untouched); only the Cache
directory is removed.  The claimed mutation is the intent of the dead
`print(" Done.")` path; the code never performs it. -/
theorem clean_cache_history_unchanged :
    ∀ fs : ProfileFS,
      (clean_profile fs ["cache"]).2.dbs = fs.dbs
      ∧ getA (clean_profile fs ["cache"]).2.folders "Cache" = none := by
  intro fs
  have hsnd : (clean_profile fs ["cache"]).2 = (cleanCategory fs "cache").2 := rfl
  rw [hsnd]
  have hcc : (cleanCategory fs "cache").2
      = bundled_downloads_step
          (match getA fs.folders "Cache" with
           | some _ => { fs with folders := removeA fs.folders "Cache" }
           | none => fs) := by
    unfold cleanCategory
    rw [show DATA_TYPE_MAPPING "cache" = some ⟨StorageKind.folder, "Cache", ""⟩ from rfl]
    dsimp only
    rw [if_pos rfl]
  rw [hcc, bundled_downloads_step_eq]
  cases hfo : getA fs.folders "Cache" with
  | some fo => exact ⟨rfl, getA_removeA_self fs.folders "Cache"⟩
  | none => exact ⟨rfl, hfo⟩

/-- C8: cleaning is idempotent per profile and category: when a
single-category `clean_profile` call reports success, running the same
call again on the resulting state reports `success = true` with
`bytes_freed = 0`.  The calls that complete successfully are the
directory removals and the missing-store no-ops (the tabular
delete+compaction always raises at the VACUUM): a removed directory is
a missing path measuring 0 the second time, and a missing store stays
missing. -/
theorem clean_idempotent :
    ∀ (fs : ProfileFS) (dt : String) (o : CleanupOutcome) (fs1 : ProfileFS),
      clean_profile fs [dt] = ([(dt, o)], fs1) → o.success = true →
      ∃ o2 fs2, clean_profile fs1 [dt] = ([(dt, o2)], fs2)
        ∧ o2.success = true ∧ o2.bytes_freed = 0 := by
  intro fs dt o fs1 hrun hsucc
  have hsingle : ∀ g : ProfileFS, clean_profile g [dt]
      = ((match (cleanCategory g dt).1 with
          | some oo => [(dt, oo)]
          | none => []), (cleanCategory g dt).2) := by
    intro g
    simp only [clean_profile]
    cases h : (cleanCategory g dt).1 <;> simp [h]
  rw [hsingle fs] at hrun
  injection hrun with hlist hsnd
  cases hstep : (cleanCategory fs dt).1 with
  | none =>
    rw [hstep] at hlist
    simp at hlist
  | some o' =>
    rw [hstep] at hlist
    dsimp only at hlist
    injection hlist with hpair hnil
    injection hpair with hdt ho
    subst ho
    subst hsnd
    cases hmap : DATA_TYPE_MAPPING dt with
    | none =>
      unfold cleanCategory at hstep
      rw [hmap] at hstep
      exact Option.noConfusion hstep
    | some cfg =>
      obtain ⟨kind, loc, table⟩ := cfg
      cases kind with
      | folder =>
        have hfold : (cleanCategory fs dt).2.folders
            = (match getA fs.folders loc with
               | some _ => removeA fs.folders loc
               | none => fs.folders) := by
          unfold cleanCategory
          rw [hmap]
          dsimp only
          by_cases hdtc : dt = "cache"
          · rw [if_pos hdtc, bundled_downloads_step_eq]
            cases hfo : getA fs.folders loc <;> rfl
          · rw [if_neg hdtc]
            cases hfo : getA fs.folders loc <;> rfl
        have hnone : getA (cleanCategory fs dt).2.folders loc = none := by
          rw [hfold]
          cases hfo : getA fs.folders loc with
          | some fo => exact getA_removeA_self fs.folders loc
          | none => exact hfo
        have hfst : ∀ g : ProfileFS, getA g.folders loc = none →
            (cleanCategory g dt).1
              = some { success := true, bytes_freed := 0, error := none } := by
          intro g hg
          unfold cleanCategory
          rw [hmap]
          dsimp only
          rw [show get_folder_size g loc = 0 from by unfold get_folder_size; rw [hg]]
        refine ⟨{ success := true, bytes_freed := 0, error := none },
          (cleanCategory (cleanCategory fs dt).2 dt).2, ?_, rfl, rfl⟩
        rw [hsingle (cleanCategory fs dt).2, hfst _ hnone]
      | sqlite =>
        unfold cleanCategory at hstep
        rw [hmap] at hstep
        dsimp only at hstep
        cases hget : getA fs.dbs loc with
        | none =>
          rw [hget] at hstep
          have hsnd2 : (cleanCategory fs dt).2 = fs := by
            unfold cleanCategory
            rw [hmap]
            dsimp only
            rw [hget]
          have hfst : ∀ g : ProfileFS, getA g.dbs loc = none →
              (cleanCategory g dt).1
                = some { success := true, bytes_freed := 0, error := none } := by
            intro g hg
            unfold cleanCategory
            rw [hmap]
            dsimp only
            rw [hg]
          refine ⟨{ success := true, bytes_freed := 0, error := none },
            (cleanCategory (cleanCategory fs dt).2 dt).2, ?_, rfl, rfl⟩
          rw [hsingle (cleanCategory fs dt).2, hfst _ (by rw [hsnd2]; exact hget)]
        | some db =>
          rw [hget] at hstep
          dsimp only at hstep
          cases he : deleteAndVacuum db table with
          | error msg =>
            rw [he] at hstep
            injection hstep with hstep
            rw [← hstep] at hsucc
            exact Bool.noConfusion hsucc
          | ok db' => exact absurd he (deleteAndVacuum_ne_ok db table db')
      | sqlite_nocount =>
        unfold cleanCategory at hstep
        rw [hmap] at hstep
        dsimp only at hstep
        cases hget : getA fs.dbs loc with
        | none =>
          rw [hget] at hstep
          have hsnd2 : (cleanCategory fs dt).2 = fs := by
            unfold cleanCategory
            rw [hmap]
            dsimp only
            rw [hget]
          have hfst : ∀ g : ProfileFS, getA g.dbs loc = none →
              (cleanCategory g dt).1
                = some { success := true, bytes_freed := 0, error := none } := by
            intro g hg
            unfold cleanCategory
            rw [hmap]
            dsimp only
            rw [hg]
          refine ⟨{ success := true, bytes_freed := 0, error := none },
            (cleanCategory (cleanCategory fs dt).2 dt).2, ?_, rfl, rfl⟩
          rw [hsingle (cleanCategory fs dt).2, hfst _ (by rw [hsnd2]; exact hget)]
        | some db =>
          rw [hget] at hstep
          dsimp only at hstep
          cases he : deleteAndVacuum db table with
          | error msg =>
            rw [he] at hstep
            injection hstep with hstep
            rw [← hstep] at hsucc
            exact Bool.noConfusion hsucc
          | ok db' => exact absurd he (deleteAndVacuum_ne_ok db table db')

/-- A healthy History store with a populated `urls` table. -/
def dbC1 : DB := { tables := [⟨"urls", 3⟩], size := 60, corrupt := false }

/-- A profile with a healthy History store: the exact situation in which
the claim expects the tabular cleanup to succeed and report a size
delta. -/
def fsC1 : ProfileFS :=
  { folders := [], dbs := [("History", dbC1)] }

/-- Witness for C1 at the concrete failing input: a healthy 60-byte
History store with 3 `urls` rows is reported FAILED with the VACUUM
message, 0 bytes freed, and the profile unchanged. -/
theorem cleanCategory_vacuum_tx_bug_witness :
    cleanCategory fsC1 "history"
      = (some { success := false, bytes_freed := 0,
                error := some "cannot VACUUM from within a transaction" }, fsC1) :=
  cleanCategory_vacuum_tx_bug fsC1 "history" ⟨.sqlite, "History", "urls"⟩ dbC1
    rfl (by decide) rfl rfl rfl

/-- A cookies store whose file is corrupt. -/
def dbCorruptCookies : DB :=
  { tables := [⟨"cookies", 4⟩], size := 50, corrupt := true }

/-- A profile with three cleanable categories of which the middle one
(`cookies`) is corrupt. -/
def fsThreeCats : ProfileFS :=
  { folders := [("Cache", ⟨[.file 100]⟩)],
    dbs := [("History", { tables := [⟨"urls", 3⟩, ⟨"downloads", 1⟩],
                          size := 60, corrupt := false }),
            ("Network/Cookies", dbCorruptCookies)] }

/-- Witness for C2 on the spec's three-category batch with a corrupt
middle store: the category after the failure still gets an outcome, and
the failed outcome has `bytes_freed = 0` and a non-empty message. -/
theorem clean_profile_failure_isolation_witness :
    (∃ o, ("cache", o) ∈ (clean_profile fsThreeCats ["history", "cookies", "cache"]).1)
    ∧ ((⟨false, 0, some "database disk image is malformed"⟩ : CleanupOutcome).bytes_freed = 0
        ∧ ∃ msg, (⟨false, 0, some "database disk image is malformed"⟩ : CleanupOutcome).error
            = some msg ∧ msg ≠ "") :=
  ⟨(clean_profile_failure_isolation fsThreeCats ["history", "cookies", "cache"]).1
      "cache" (by decide) rfl,
   (clean_profile_failure_isolation fsThreeCats ["history", "cookies", "cache"]).2
      "cookies" ⟨false, 0, some "database disk image is malformed"⟩ (by decide) rfl⟩

/-- A profile with a healthy, populated History store. -/
def fsHistHealthy : ProfileFS :=
  { folders := [],
    dbs := [("History", { tables := [⟨"urls", 3⟩], size := 150, corrupt := false })] }

/-- Witness for the amended C4 at a healthy populated History store. -/
theorem analyze_rowcount_presence_amended_witness :
    ((rowCountPresent { count := some (.num 3), size := 150 } = true ↔
        ((⟨StorageKind.sqlite, "History", "urls"⟩ : CatConfig).kind = .sqlite
          ∧ ∀ db, getA fsHistHealthy.dbs "History" = some db → db.corrupt = false))
      ∧ (backingAbsent fsHistHealthy ⟨.sqlite, "History", "urls"⟩
          → ({ count := some (.num 3), size := 150 } : Metric).size = 0)) :=
  analyze_rowcount_presence_amended fsHistHealthy "history" ⟨.sqlite, "History", "urls"⟩
    { count := some (.num 3), size := 150 } fsHistHealthy rfl rfl

/-- A profile about to be cleaned for the first time: a populated Cache
directory (one 100-byte file) and no stores. -/
def fsBeforeCleanup : ProfileFS :=
  { folders := [("Cache", ⟨[.file 100]⟩)], dbs := [] }

/-- The state `clean_profile fsBeforeCleanup ["cache"]` leaves behind:
the Cache directory removed. -/
def fsAfterCleanup : ProfileFS :=
  { folders := [], dbs := [] }

/-- Witness for C8: after a successful cache cleanup (100 bytes freed by
removing the directory), repeating the call succeeds and frees 0
bytes. -/
theorem clean_idempotent_witness :
    ∃ o2 fs2, clean_profile fsAfterCleanup ["cache"] = ([("cache", o2)], fs2)
      ∧ o2.success = true ∧ o2.bytes_freed = 0 :=
  clean_idempotent fsBeforeCleanup "cache" ⟨true, 100, none⟩ fsAfterCleanup (by decide) rfl

end ChromeCleaner
